import Mathlib

/-!
Verification of the model-catalog selector in
`jetbot/utils/model_selection_v1.py` (class `model_selection`), shallowly
embedded in Lean.  The pandas dataframe is modelled as a list of rows; the
traitlets observer mechanism (assigning an observed trait fires the
`update_model` handler, but only when the new value differs from the old) is
modelled by explicit setter functions.  Construction is fallible and returns
`Except`.
-/

namespace ModelSelection

/-- One row of the backing CSV table (columns `HEAD_LIST` of the source:
`model_function`, `model_type`, `model_path`). -/
structure CatalogRow where
  model_function : String
  model_type : String
  model_path : String
deriving DecidableEq, Repr

/-- Python exceptions the constructor can raise, plus the two error classes
named by the spec.  `Modelled from the spec:` the constructors
`catalogLoadError` and `noMatchingModelError` stand for the two spec-named
`CatalogLoadError` and `NoMatchingModelError` exception classes, which do not
appear anywhere in the source; they are needed to state claims about those
errors. -/
inductive PyError where
  | indexError
  | attributeError
  | catalogLoadError
  | noMatchingModelError
deriving DecidableEq, Repr

/-- The mutable trait state of a `model_selection` instance, together with
the immutable dataframe `df` loaded at construction. -/
structure ModelSelectionState where
  df : List CatalogRow
  model_function : String
  model_function_list : List String
  model_type : String
  model_type_list : List String
  model_path : String
  model_path_list : List String
deriving DecidableEq, Repr

/-- Python `s.split("/", 1)`: split at the first `'/'` only; a string with
no `'/'` yields the one-element list `[s]`. -/
def splitSlashOnce (s : String) : List String :=
  if '/' ∈ s.toList then
    [String.mk (s.toList.takeWhile (fun c => c ≠ '/')),
     String.mk ((s.toList.dropWhile (fun c => c ≠ '/')).drop 1)]
  else [s]

/-- The substring of `s` after its first `'/'` (meaningful when `s`
contains one). -/
def afterFirstSlash (s : String) : String :=
  String.mk ((s.toList.dropWhile (fun c => c ≠ '/')).drop 1)

/-- Whether a string starts with the separator `'/'`. -/
def startsWithSlash (s : String) : Bool :=
  match s.toList with
  | [] => false
  | c :: _ => c == '/'

/-- Whether a string ends with the separator `'/'`. -/
def endsWithSlash (s : String) : Bool :=
  match s.toList.getLast? with
  | none => false
  | some c => c == '/'

/-- Python `os.path.join(a, b)` on POSIX: an absolute second component discards the
first; otherwise they are concatenated, inserting `'/'` unless `a` is empty
or already ends in `'/'`. -/
def osPathJoin (a b : String) : String :=
  if startsWithSlash b then b
  else if a = "" ∨ endsWithSlash a then a ++ b
  else a ++ "/" ++ b

/-- The path rewrite the constructor applies to one row:
`p[2] = os.path.join(dir_model_repo, p[2].split("/", 1)[1])`.
Indexing `[1]` into a one-element split result raises `IndexError`. -/
def rewriteRow (root : String) (r : CatalogRow) : Except PyError CatalogRow :=
  match splitSlashOnce r.model_path with
  | [_, rest] => .ok { r with model_path := osPathJoin root rest }
  | _ => .error .indexError

/-- The constructor loop `for p in self.df.values`, rewriting the path of
every row; the first failing row aborts construction. -/
def rewriteRows (root : String) : List CatalogRow → Except PyError (List CatalogRow)
  | [] => .ok []
  | r :: rs =>
    match rewriteRow root r with
    | .error e => .error e
    | .ok r' =>
      match rewriteRows root rs with
      | .error e => .error e
      | .ok rs' => .ok (r' :: rs')

/-- Lexicographic comparison of character lists by code point. -/
def lexLe : List Char → List Char → Bool
  | [], _ => true
  | _ :: _, [] => false
  | a :: as, b :: bs =>
    if a.toNat < b.toNat then true
    else if b.toNat < a.toNat then false
    else lexLe as bs

/-- Lexicographic order on strings by code point, as Python and pandas
compare strings. -/
def strLe (a b : String) : Bool := lexLe a.toList b.toList

/-- Insert a string into a `strLe`-sorted list. -/
def insertSorted (x : String) : List String → List String
  | [] => [x]
  | y :: ys => if strLe x y then x :: y :: ys else y :: insertSorted x ys

/-- Insertion sort on strings (lexicographic). -/
def sortStrings (l : List String) : List String :=
  l.foldr insertSorted []

/-- Pandas `list(series.astype("category").cat.categories)`: the distinct values of
the column, lexicographically sorted. -/
def catCategories (l : List String) : List String :=
  sortStrings l.eraseDups

/-- Method `update_model_type_list`: filter `df` by the current `model_function`
and store the sorted distinct `model_type` values in `model_type_list`. -/
def update_model_type_list (s : ModelSelectionState) : ModelSelectionState :=
  let mf := s.df.filter (fun r => r.model_function == s.model_function)
  { s with model_type_list := catCategories (mf.map (fun r => r.model_type)) }

/-- The pandas selection `mt.loc` restricted to the single column
`model_path`, then `.values`: an n-by-1 matrix, one singleton row per
filtered catalog row. -/
def locModelPathValues (l : List CatalogRow) : List (List String) :=
  l.map (fun r => [r.model_path])

/-- Numpy `mpl[:, 0].tolist()`: column 0 of an n-by-1 matrix as a plain list. -/
def col0Tolist (m : List (List String)) : List String :=
  m.map (fun row => row.headD "")

/-- Method `update_model_list` (v1): filter by current function, then by current
type, take the `model_path` column and store it in `model_path_list`. -/
def update_model_list (s : ModelSelectionState) : ModelSelectionState :=
  let mf := s.df.filter (fun r => r.model_function == s.model_function)
  let mt := mf.filter (fun r => r.model_type == s.model_type)
  let mpl := locModelPathValues mt
  { s with model_path_list := col0Tolist mpl }

/-- The `update_model` observer handler: dispatch on the name of the changed
trait (the `name` entry of the change dict), re-assign the already-assigned
new value, and recompute the downstream list. -/
def update_model (s : ModelSelectionState) (name newv : String) : ModelSelectionState :=
  let s1 := if name == "model_function" then
      update_model_type_list { s with model_function := newv } else s
  let s2 := if name == "model_type" then
      update_model_list { s1 with model_type := newv } else s1
  let s3 := if name == "model_path" then { s2 with model_path := newv } else s2
  s3

/-- Assigning `ms.model_function = newv`: traitlets stores the value and
fires the observer only when the value actually changes. -/
def set_function (newv : String) (s : ModelSelectionState) : ModelSelectionState :=
  if s.model_function == newv then s
  else update_model { s with model_function := newv } "model_function" newv

/-- Assigning `ms.model_type = newv` (observer fires only on change). -/
def set_type (newv : String) (s : ModelSelectionState) : ModelSelectionState :=
  if s.model_type == newv then s
  else update_model { s with model_type := newv } "model_type" newv

/-- Assigning `ms.model_path = newv` (observer fires only on change). -/
def set_path (newv : String) (s : ModelSelectionState) : ModelSelectionState :=
  if s.model_path == newv then s
  else update_model { s with model_path := newv } "model_path" newv

/-- The `if/elif` on `core_library`: which backing table is read into
`self.df`.  Any other tag leaves `self.df` unassigned (`none`). -/
def loadTbl (core_library : String) (trtTbl torchTbl : List CatalogRow) :
    Option (List CatalogRow) :=
  if core_library = "TensorRT" then some trtTbl
  else if core_library = "Pytorch" then some torchTbl
  else none

/-- Constructor `model_selection.__init__`: choose the backing table by `core_library`
(accessing the unassigned `self.df` for any other tag raises
`AttributeError`), rewrite the path of every row under `dir_model_repo`, compute
`model_function_list`, then run `update_model_type_list` and
`update_model_list` once.  Trait defaults: `model_function = "object
detection"`, `model_type = "SSD"`, `model_path = ""`, list traits `[]`. -/
def construct (core_library root : String) (trtTbl torchTbl : List CatalogRow) :
    Except PyError ModelSelectionState :=
  match loadTbl core_library trtTbl torchTbl with
  | none => .error .attributeError
  | some tbl =>
    match rewriteRows root tbl with
    | .error e => .error e
    | .ok df =>
      .ok (update_model_list (update_model_type_list
        { df := df
          model_function := "object detection"
          model_function_list := catCategories (df.map (fun r => r.model_function))
          model_type := "SSD"
          model_type_list := []
          model_path := ""
          model_path_list := [] }))

/-- A setter call, as performed by assigning one of the three observed
traits. -/
inductive Op where
  | setFunction (f : String)
  | setType (t : String)
  | setPath (p : String)
deriving DecidableEq, Repr

/-- Apply one setter call to the state. -/
def applyOp (s : ModelSelectionState) : Op → ModelSelectionState
  | .setFunction f => set_function f s
  | .setType t => set_type t s
  | .setPath p => set_path p s

/-- Apply a sequence of setter calls, left to right. -/
def run (s : ModelSelectionState) : List Op → ModelSelectionState
  | [] => s
  | op :: ops => run (applyOp s op) ops

/-- The distinct, lexicographically sorted `model_type` values among rows of
`df` whose `model_function` is `f` — what `update_model_type_list` stores. -/
def distinctTypesFor (df : List CatalogRow) (f : String) : List String :=
  catCategories ((df.filter (fun r => r.model_function == f)).map
    (fun r => r.model_type))

/-- Consistency of `model_type_list` with the current `model_function`. -/
def TypeInv (s : ModelSelectionState) : Prop :=
  s.model_type_list = distinctTypesFor s.df s.model_function

/-- Result type for `update_model_list` of the checkpoint file
(`.ipynb_checkpoints/model_selection-checkpoint.py`) ends in
`np.squeeze(mpl).tolist()`.  `tolist` of a squeezed array is a plain list
unless squeezing removed every axis, in which case it is a bare scalar. -/
inductive NpTolist where
  | list (l : List String)
  | scalar (s : String)
deriving DecidableEq, Repr

/-- Numpy `np.squeeze(mpl).tolist()` on an n-by-1 matrix: for n = 1 both axes are
squeezed away and `tolist` returns the scalar entry; otherwise the result is
the column as a list. -/
def npSqueezeTolist (m : List (List String)) : NpTolist :=
  match m with
  | [[x]] => .scalar x
  | _ => .list (col0Tolist m)

/-- The `model_path_list` value computed by the v1 `update_model_list` for a
given dataframe and current selection, as an `NpTolist` for comparison. -/
def modelPathListV1 (df : List CatalogRow) (f t : String) : NpTolist :=
  let mf := df.filter (fun r => r.model_function == f)
  let mt := mf.filter (fun r => r.model_type == t)
  .list (col0Tolist (locModelPathValues mt))

/-- The `model_path_list` value computed by the checkpoint
`update_model_list` for the same inputs. -/
def modelPathListCkpt (df : List CatalogRow) (f t : String) : NpTolist :=
  let mf := df.filter (fun r => r.model_function == f)
  let mt := mf.filter (fun r => r.model_type == t)
  npSqueezeTolist (locModelPathValues mt)

/-- The four-row demo catalog used by the end-to-end scenario. -/
def demoRows : List CatalogRow :=
  [⟨"object detection", "SSD", "repo/a/m1.trt"⟩,
   ⟨"object detection", "SSD", "repo/a/m2.trt"⟩,
   ⟨"object detection", "ResNet", "repo/b/m3.trt"⟩,
   ⟨"lane following", "CNN", "repo/c/m4.trt"⟩]

/-- The state `construct "TensorRT" "/root" demoRows []` produces. -/
def demoState : ModelSelectionState :=
  { df := [⟨"object detection", "SSD", "/root/a/m1.trt"⟩,
           ⟨"object detection", "SSD", "/root/a/m2.trt"⟩,
           ⟨"object detection", "ResNet", "/root/b/m3.trt"⟩,
           ⟨"lane following", "CNN", "/root/c/m4.trt"⟩]
    model_function := "object detection"
    model_function_list := ["lane following", "object detection"]
    model_type := "SSD"
    model_type_list := ["ResNet", "SSD"]
    model_path := ""
    model_path_list := ["/root/a/m1.trt", "/root/a/m2.trt"] }

/-- A one-row catalog whose raw path is the path-resolution example of the
spec. -/
def resRows : List CatalogRow := [⟨"f", "t", "repo/sub/model.onnx"⟩]

/-- The state `construct "TensorRT" "/data/models" resRows []` produces. -/
def resState : ModelSelectionState :=
  { df := [⟨"f", "t", "/data/models/sub/model.onnx"⟩]
    model_function := "object detection"
    model_function_list := ["f"]
    model_type := "SSD"
    model_type_list := []
    model_path := ""
    model_path_list := [] }

/-- A catalog with a row whose path has no separator. -/
def badRows : List CatalogRow := [⟨"f", "t", "nosep"⟩]

/-- A state over a catalog with two rows sharing function and type but
differing in path. -/
def dupState : ModelSelectionState :=
  { df := [⟨"object detection", "SSD", "/w/p1.trt"⟩,
           ⟨"object detection", "SSD", "/w/p2.trt"⟩]
    model_function := "object detection"
    model_function_list := []
    model_type := "SSD"
    model_type_list := []
    model_path := ""
    model_path_list := [] }

end ModelSelection

deriving instance DecidableEq for Except

namespace ModelSelection

theorem df_update_model_type_list (s : ModelSelectionState) :
    (update_model_type_list s).df = s.df := rfl

theorem df_update_model_list (s : ModelSelectionState) :
    (update_model_list s).df = s.df := rfl

theorem beq_function_type : (("model_function" : String) == "model_type") = false := by
  decide

theorem beq_function_path : (("model_function" : String) == "model_path") = false := by
  decide

theorem beq_type_function : (("model_type" : String) == "model_function") = false := by
  decide

theorem beq_type_path : (("model_type" : String) == "model_path") = false := by
  decide

theorem beq_path_function : (("model_path" : String) == "model_function") = false := by
  decide

theorem beq_path_type : (("model_path" : String) == "model_type") = false := by
  decide

/-- Unfolding `set_function`: either the value is unchanged and nothing
happens, or the function trait is updated and `update_model_type_list`
runs. -/
theorem set_function_def (f : String) (s : ModelSelectionState) :
    set_function f s = if s.model_function = f then s
      else update_model_type_list { s with model_function := f } := by
  by_cases h : s.model_function = f
  · simp [set_function, h]
  · simp [set_function, update_model, h, beq_function_type, beq_function_path]

/-- Unfolding `set_type`: either the value is unchanged and nothing happens,
or the type trait is updated and `update_model_list` runs. -/
theorem set_type_def (t : String) (s : ModelSelectionState) :
    set_type t s = if s.model_type = t then s
      else update_model_list { s with model_type := t } := by
  by_cases h : s.model_type = t
  · simp [set_type, h]
  · simp [set_type, update_model, h, beq_type_function, beq_type_path]

/-- Unfolding `set_path`: the path trait is stored and nothing else runs. -/
theorem set_path_def (p : String) (s : ModelSelectionState) :
    set_path p s = if s.model_path = p then s
      else { s with model_path := p } := by
  by_cases h : s.model_path = p
  · simp [set_path, h]
  · simp [set_path, update_model, h, beq_path_function, beq_path_type]

/-- After `update_model_type_list`, `model_type_list` is consistent with the
current `model_function`. -/
theorem typeInv_update_model_type_list (s : ModelSelectionState) :
    TypeInv (update_model_type_list s) := rfl

/-- `update_model_list` touches only `model_path_list`, so it preserves the
type-list invariant. -/
theorem typeInv_update_model_list (s : ModelSelectionState) (h : TypeInv s) :
    TypeInv (update_model_list s) := h

/-- Every setter call preserves the dataframe. -/
theorem applyOp_df (s : ModelSelectionState) (op : Op) :
    (applyOp s op).df = s.df := by
  cases op with
  | setFunction f => rw [applyOp, set_function_def]; split <;> rfl
  | setType t => rw [applyOp, set_type_def]; split <;> rfl
  | setPath p => rw [applyOp, set_path_def]; split <;> rfl

/-- Any sequence of setter calls preserves the dataframe. -/
theorem run_df (ops : List Op) : ∀ s : ModelSelectionState, (run s ops).df = s.df := by
  induction ops with
  | nil => intro s; rfl
  | cons op ops ih => intro s; rw [run, ih, applyOp_df]

/-- Every setter call preserves the type-list invariant. -/
theorem typeInv_applyOp (s : ModelSelectionState) (op : Op) (h : TypeInv s) :
    TypeInv (applyOp s op) := by
  cases op with
  | setFunction f =>
    rw [applyOp, set_function_def]; split
    · exact h
    · exact typeInv_update_model_type_list _
  | setType t =>
    rw [applyOp, set_type_def]; split
    · exact h
    · exact typeInv_update_model_list _ h
  | setPath p =>
    rw [applyOp, set_path_def]; split
    · exact h
    · exact h

/-- Any sequence of setter calls preserves the type-list invariant. -/
theorem typeInv_run (ops : List Op) :
    ∀ s : ModelSelectionState, TypeInv s → TypeInv (run s ops) := by
  induction ops with
  | nil => intro s h; exact h
  | cons op ops ih => intro s h; exact ih _ (typeInv_applyOp s op h)

/-- A successful construction decomposes into table selection, path
rewriting and the two initial recomputations. -/
theorem construct_ok_elim (lib root : String) (trt torch : List CatalogRow)
    (s : ModelSelectionState) (h : construct lib root trt torch = .ok s) :
    ∃ tbl df, loadTbl lib trt torch = some tbl ∧ rewriteRows root tbl = .ok df ∧
      s = update_model_list (update_model_type_list
        { df := df
          model_function := "object detection"
          model_function_list := catCategories (df.map (fun r => r.model_function))
          model_type := "SSD"
          model_type_list := []
          model_path := ""
          model_path_list := [] }) := by
  unfold construct at h
  split at h
  · exact absurd h (by simp)
  · rename_i tbl hl
    split at h
    · exact absurd h (by simp)
    · rename_i df hrw
      exact ⟨tbl, df, hl, hrw, ((Except.ok.injEq _ _).mp h).symm⟩

/-- A successfully constructed state satisfies the type-list invariant. -/
theorem construct_ok_typeInv (lib root : String) (trt torch : List CatalogRow)
    (s : ModelSelectionState) (h : construct lib root trt torch = .ok s) :
    TypeInv s := by
  obtain ⟨tbl, df, _, _, hs⟩ := construct_ok_elim lib root trt torch s h
  rw [hs]
  exact typeInv_update_model_list _ (typeInv_update_model_type_list _)

/-- On a state satisfying the invariant, `set_function` leaves
`model_type_list` equal to the distinct types for the new function value,
whether or not the observer fires. -/
theorem set_function_type_list (f : String) (s : ModelSelectionState)
    (h : TypeInv s) :
    (set_function f s).model_type_list = distinctTypesFor s.df f := by
  rw [set_function_def]; split
  · next heq => rw [h, heq]
  · rfl

/-- After `set_function`, the function trait holds the assigned value. -/
theorem set_function_model_function (f : String) (s : ModelSelectionState) :
    (set_function f s).model_function = f := by
  rw [set_function_def]; split
  · next heq => exact heq
  · rfl

/-- Filtering by a function value matching no row yields no distinct
types. -/
theorem distinctTypesFor_nil (df : List CatalogRow) (f : String)
    (h : ∀ r ∈ df, r.model_function ≠ f) : distinctTypesFor df f = [] := by
  unfold distinctTypesFor
  have : df.filter (fun r => r.model_function == f) = [] := by
    rw [List.filter_eq_nil_iff]
    intro r hr
    simpa using h r hr
  rw [this]
  rfl

/-- A row whose path has no separator makes the rewrite raise
`IndexError`. -/
theorem rewriteRow_no_slash (root : String) (r : CatalogRow)
    (h : '/' ∉ r.model_path.toList) :
    rewriteRow root r = .error .indexError := by
  unfold rewriteRow splitSlashOnce
  rw [if_neg h]

/-- A row whose path has a separator is rewritten to the root joined with
the substring after the first separator. -/
theorem rewriteRow_slash (root : String) (r : CatalogRow)
    (h : '/' ∈ r.model_path.toList) :
    rewriteRow root r =
      .ok { r with model_path := osPathJoin root (afterFirstSlash r.model_path) } := by
  unfold rewriteRow splitSlashOnce
  rw [if_pos h]
  rfl

/-- The rewrite loop fails with `IndexError` whenever some row has no
separator in its path. -/
theorem rewriteRows_error (root : String) (tbl : List CatalogRow)
    (h : ∃ r ∈ tbl, '/' ∉ r.model_path.toList) :
    rewriteRows root tbl = .error .indexError := by
  induction tbl with
  | nil => simp at h
  | cons r rs ih =>
    by_cases hr : '/' ∈ r.model_path.toList
    · obtain ⟨x, hx, hxs⟩ := h
      rcases List.mem_cons.mp hx with rfl | hmem
      · exact absurd hr hxs
      · unfold rewriteRows
        rw [rewriteRow_slash root r hr, ih ⟨x, hmem, hxs⟩]
    · unfold rewriteRows
      rw [rewriteRow_no_slash root r hr]

/-- A successful rewrite loop rewrote each row with a separator in place. -/
theorem rewriteRows_get (root : String) (tbl : List CatalogRow) :
    ∀ (df : List CatalogRow), rewriteRows root tbl = .ok df →
    ∀ (i : Nat) (hi : i < tbl.length),
      '/' ∈ (tbl.get ⟨i, hi⟩).model_path.toList →
      df.get? i = some { tbl.get ⟨i, hi⟩ with
        model_path := osPathJoin root (afterFirstSlash (tbl.get ⟨i, hi⟩).model_path) } := by
  induction tbl with
  | nil => intro df h i hi; exact absurd hi (Nat.not_lt_zero i)
  | cons r rs ih =>
    intro df h i hi hsep
    unfold rewriteRows at h
    split at h
    · exact absurd h (by simp)
    · rename_i r' hr
      split at h
      · exact absurd h (by simp)
      · rename_i rs' hrs
        have hdf : df = r' :: rs' := ((Except.ok.injEq _ _).mp h).symm
        subst hdf
        cases i with
        | zero =>
          have : rewriteRow root r =
              .ok { r with model_path := osPathJoin root (afterFirstSlash r.model_path) } :=
            rewriteRow_slash root r hsep
          rw [hr] at this
          have hr' := (Except.ok.injEq _ _).mp this
          simpa using hr'
        | succ j =>
          have hj : j < rs.length := Nat.lt_of_succ_lt_succ hi
          simpa using ih rs' hrs j hj hsep

/-- Composing the two pandas row filters into one conjunctive filter. -/
theorem filter_filter_and {α : Type} (P Q : α → Bool) (l : List α) :
    (l.filter P).filter Q = l.filter (fun a => P a && Q a) := by
  induction l with
  | nil => rfl
  | cons x xs ih => cases hP : P x <;> cases hQ : Q x <;>
      simp [List.filter_cons, hP, hQ, ih]

/-- Extracting column 0 from the n-by-1 path matrix recovers the plain path
column. -/
theorem col0_loc (l : List CatalogRow) :
    col0Tolist (locModelPathValues l) = l.map (fun r => r.model_path) := by
  unfold col0Tolist locModelPathValues
  rw [List.map_map]
  rfl

/-- The squeeze-based conversion agrees with the plain column conversion
exactly when the matrix does not have exactly one row. -/
theorem npSqueezeTolist_eq_iff (l : List CatalogRow) :
    NpTolist.list (col0Tolist (locModelPathValues l)) =
      npSqueezeTolist (locModelPathValues l) ↔ l.length ≠ 1 := by
  cases l with
  | nil => simp [npSqueezeTolist, locModelPathValues, col0Tolist]
  | cons r rs =>
    cases rs with
    | nil => simp [npSqueezeTolist, locModelPathValues, col0Tolist]
    | cons r2 tl => simp [npSqueezeTolist, locModelPathValues, col0Tolist]

/-- C1 (cascade consistency): for every successfully constructed selector
and every sequence of setter calls, the reached state satisfies the
type-list invariant, and immediately after a further `set_function f` the
`model_type_list` equals the sorted distinct `model_type` values among
catalog rows whose `model_function` equals `f`. -/
theorem cascade_consistency (lib root : String) (trt torch : List CatalogRow)
    (s0 : ModelSelectionState) (h : construct lib root trt torch = .ok s0)
    (ops : List Op) (f : String) :
    TypeInv (run s0 ops) ∧
    (set_function f (run s0 ops)).model_type_list = distinctTypesFor s0.df f := by
  have h1 : TypeInv (run s0 ops) :=
    typeInv_run ops s0 (construct_ok_typeInv lib root trt torch s0 h)
  exact ⟨h1, by rw [set_function_type_list f _ h1, run_df]⟩

/-- C1 witness: the cascade-consistency theorem applied to the concrete
four-row catalog, a `set_type` call, and `set_function "lane following"`. -/
theorem cascade_consistency_witness :
    TypeInv (run demoState [Op.setType "X"]) ∧
    (set_function "lane following" (run demoState [Op.setType "X"])).model_type_list =
      distinctTypesFor demoState.df "lane following" :=
  cascade_consistency "TensorRT" "/root" demoRows [] demoState rfl
    [Op.setType "X"] "lane following"

/-- C2 (end-to-end scenario): constructing over the four-row demo catalog
with root `"/root"` yields the expected options and defaults, then
`set_function "lane following"` yields `type_options = ["CNN"]` and a
subsequent `set_type "CNN"` yields `path_options = ["/root/c/m4.trt"]`. -/
theorem scenario_end_to_end :
    construct "TensorRT" "/root" demoRows [] = .ok demoState ∧
    demoState.model_function_list = ["lane following", "object detection"] ∧
    demoState.model_function = "object detection" ∧
    demoState.model_type_list = ["ResNet", "SSD"] ∧
    demoState.model_type = "SSD" ∧
    demoState.model_path_list = ["/root/a/m1.trt", "/root/a/m2.trt"] ∧
    (set_function "lane following" demoState).model_type_list = ["CNN"] ∧
    (set_type "CNN" (set_function "lane following" demoState)).model_path_list =
      ["/root/c/m4.trt"] :=
  ⟨rfl, rfl, rfl, rfl, rfl, rfl, rfl, rfl⟩

/-- C3 (path resolution at load): for every catalog row whose raw path
contains a separator, successful construction rewrites that row to the
configured root joined with the substring after the first separator. -/
theorem path_resolution_at_load (lib root : String)
    (trt torch tbl : List CatalogRow) (hl : loadTbl lib trt torch = some tbl)
    (s : ModelSelectionState) (h : construct lib root trt torch = .ok s)
    (i : Nat) (hi : i < tbl.length)
    (hsep : '/' ∈ (tbl.get ⟨i, hi⟩).model_path.toList) :
    s.df.get? i = some { tbl.get ⟨i, hi⟩ with
      model_path := osPathJoin root (afterFirstSlash (tbl.get ⟨i, hi⟩).model_path) } := by
  obtain ⟨tbl2, df, hl2, hrw, hs⟩ := construct_ok_elim lib root trt torch s h
  rw [hl] at hl2
  have htbl : tbl = tbl2 := (Option.some.injEq _ _).mp hl2
  subst htbl
  have hdf : s.df = df := by rw [hs]; rfl
  rw [hdf]
  exact rewriteRows_get root tbl df hrw i hi hsep

/-- C3 witness: raw path `"repo/sub/model.onnx"` with root
`"/data/models"` resolves to `"/data/models/sub/model.onnx"`. -/
theorem path_resolution_at_load_witness :
    resState.df.get? 0 = some { resRows.get ⟨0, by decide⟩ with
      model_path := osPathJoin "/data/models"
        (afterFirstSlash (resRows.get ⟨0, by decide⟩).model_path) } ∧
    osPathJoin "/data/models" (afterFirstSlash "repo/sub/model.onnx") =
      "/data/models/sub/model.onnx" :=
  ⟨path_resolution_at_load "TensorRT" "/data/models" resRows [] resRows
    rfl resState rfl 0 (by decide) (by decide), rfl⟩

/-- C4 counterexample: on a catalog whose only row has a separator-free
path, construction does not fail with the spec-named `CatalogLoadError`
(it fails with `IndexError`). -/
theorem malformed_row_counterexample :
    construct "TensorRT" "/root" badRows [] ≠ .error PyError.catalogLoadError := by
  intro h
  rw [show construct "TensorRT" "/root" badRows [] = .error PyError.indexError from rfl] at h
  exact absurd ((Except.error.injEq _ _).mp h) (by decide)

/-- C4 amended: a catalog containing a row whose path has no separator makes
construction fail with `IndexError` (from indexing the one-element split),
so no selector state is produced. -/
theorem malformed_row_raises (lib root : String) (trt torch tbl : List CatalogRow)
    (hl : loadTbl lib trt torch = some tbl)
    (hbad : ∃ r ∈ tbl, '/' ∉ r.model_path.toList) :
    construct lib root trt torch = .error PyError.indexError := by
  have h1 := rewriteRows_error root tbl hbad
  simp [construct, hl, h1]

/-- C4 witness: the amended theorem applied to the concrete one-row
catalog with path `"nosep"`. -/
theorem malformed_row_raises_witness :
    construct "TensorRT" "/root" badRows [] = .error PyError.indexError :=
  malformed_row_raises "TensorRT" "/root" badRows [] badRows rfl (by decide)

/-- C5 counterexample: constructing over an empty catalog does not raise the
spec-named `NoMatchingModelError` (it succeeds). -/
theorem empty_catalog_counterexample :
    construct "TensorRT" "/r" [] [] ≠ .error PyError.noMatchingModelError := by
  intro h
  rw [show construct "TensorRT" "/r" [] [] = .ok
      { df := []
        model_function := "object detection"
        model_function_list := []
        model_type := "SSD"
        model_type_list := []
        model_path := ""
        model_path_list := [] } from rfl] at h
  exact absurd h (by simp)

/-- C5 amended: constructing over an empty catalog succeeds for either
supported `core_library` tag, yielding the default selection with empty
`model_function_list`, `model_type_list` and `model_path_list`. -/
theorem empty_catalog_constructs (lib : String)
    (hlib : lib = "TensorRT" ∨ lib = "Pytorch") (root : String) :
    construct lib root [] [] = .ok
      { df := []
        model_function := "object detection"
        model_function_list := []
        model_type := "SSD"
        model_type_list := []
        model_path := ""
        model_path_list := [] } := by
  rcases hlib with h | h <;> subst h <;> rfl

/-- C5 witness: the amended theorem applied at tag `"TensorRT"` and root
`"/r"`. -/
theorem empty_catalog_constructs_witness :
    construct "TensorRT" "/r" [] [] = .ok
      { df := []
        model_function := "object detection"
        model_function_list := []
        model_type := "SSD"
        model_type_list := []
        model_path := ""
        model_path_list := [] } :=
  empty_catalog_constructs "TensorRT" (Or.inl rfl) "/r"

/-- C6 (non-deduplication and order of path options): `update_model_list`
stores exactly the `model_path` values of the rows matching the current
function and type, in catalog order and without deduplication; on a catalog
with two rows sharing function and type but differing in path it stores both
paths. -/
theorem path_options_no_dedup :
    (∀ s : ModelSelectionState, (update_model_list s).model_path_list =
      (s.df.filter (fun r => r.model_function == s.model_function &&
        r.model_type == s.model_type)).map (fun r => r.model_path)) ∧
    (update_model_list dupState).model_path_list = ["/w/p1.trt", "/w/p2.trt"] ∧
    (update_model_list dupState).model_path_list.length = 2 := by
  refine ⟨?_, rfl, rfl⟩
  intro s
  show col0Tolist (locModelPathValues
      ((s.df.filter (fun r => r.model_function == s.model_function)).filter
        (fun r => r.model_type == s.model_type))) = _
  rw [col0_loc, filter_filter_and]

/-- C7 (leaf independence): `set_path` stores the new path and leaves the
function, type, all three option lists and the dataframe unchanged. -/
theorem set_path_frame (p : String) (s : ModelSelectionState) :
    (set_path p s).model_path = p ∧
    (set_path p s).model_function = s.model_function ∧
    (set_path p s).model_type = s.model_type ∧
    (set_path p s).model_function_list = s.model_function_list ∧
    (set_path p s).model_type_list = s.model_type_list ∧
    (set_path p s).model_path_list = s.model_path_list ∧
    (set_path p s).df = s.df := by
  rw [set_path_def]
  split
  · next h => exact ⟨h, rfl, rfl, rfl, rfl, rfl, rfl⟩
  · exact ⟨rfl, rfl, rfl, rfl, rfl, rfl, rfl⟩

/-- C8 (permissive setters): on any reachable state of a successfully
constructed selector, `set_function f` completes for every string `f`,
stores `f` unconditionally, recomputes `model_type_list` for `f`, and when
no catalog row matches `f` the recomputed list is empty. -/
theorem permissive_set_function (lib root : String) (trt torch : List CatalogRow)
    (s0 : ModelSelectionState) (h : construct lib root trt torch = .ok s0)
    (ops : List Op) (f : String) :
    (set_function f (run s0 ops)).model_function = f ∧
    (set_function f (run s0 ops)).model_type_list = distinctTypesFor s0.df f ∧
    ((∀ r ∈ s0.df, r.model_function ≠ f) →
      (set_function f (run s0 ops)).model_type_list = []) := by
  have h1 : TypeInv (run s0 ops) :=
    typeInv_run ops s0 (construct_ok_typeInv lib root trt torch s0 h)
  have h2 : (set_function f (run s0 ops)).model_type_list = distinctTypesFor s0.df f := by
    rw [set_function_type_list f _ h1, run_df]
  exact ⟨set_function_model_function f _, h2,
    fun hno => by rw [h2, distinctTypesFor_nil s0.df f hno]⟩

/-- C8 witness: setting the out-of-catalog function value `"flight"` on the
demo selector stores it and leaves an empty `model_type_list`. -/
theorem permissive_set_function_witness :
    (set_function "flight" (run demoState [])).model_function = "flight" ∧
    (set_function "flight" (run demoState [])).model_type_list = [] := by
  have h := permissive_set_function "TensorRT" "/root" demoRows [] demoState
    rfl [] "flight"
  exact ⟨h.1, h.2.2 (by decide)⟩

/-- C9 counterexample: on a catalog whose filter matches exactly one row,
the v1 `model_path_list` (a singleton list) differs from the checkpoint one
(a bare scalar produced by `np.squeeze`). -/
theorem squeeze_equiv_counterexample :
    modelPathListV1 [⟨"object detection", "SSD", "/w/p.trt"⟩]
        "object detection" "SSD" ≠
      modelPathListCkpt [⟨"object detection", "SSD", "/w/p.trt"⟩]
        "object detection" "SSD" := by
  intro h
  rw [show modelPathListV1 [⟨"object detection", "SSD", "/w/p.trt"⟩]
        "object detection" "SSD" = .list ["/w/p.trt"] from rfl,
      show modelPathListCkpt [⟨"object detection", "SSD", "/w/p.trt"⟩]
        "object detection" "SSD" = .scalar "/w/p.trt" from rfl] at h
  exact absurd h (by simp)

/-- C9 amended: the v1 and checkpoint `update_model_list` computations of
`model_path_list` agree exactly when the filtered selection does not consist
of exactly one row. -/
theorem squeeze_equiv_iff (df : List CatalogRow) (f t : String) :
    modelPathListV1 df f t = modelPathListCkpt df f t ↔
      ((df.filter (fun r => r.model_function == f)).filter
        (fun r => r.model_type == t)).length ≠ 1 := by
  unfold modelPathListV1 modelPathListCkpt
  exact npSqueezeTolist_eq_iff _

/-- C10 (unsupported core_library tag): for any tag other than
`"TensorRT"` and `"Pytorch"`, construction fails with `AttributeError`
(the dataframe attribute is never assigned), producing no selector. -/
theorem unsupported_core_library (lib root : String) (trt torch : List CatalogRow)
    (h1 : lib ≠ "TensorRT") (h2 : lib ≠ "Pytorch") :
    construct lib root trt torch = .error PyError.attributeError := by
  unfold construct loadTbl
  rw [if_neg h1, if_neg h2]

/-- C10 witness: the theorem applied at the concrete tag `"TensorFlow"`. -/
theorem unsupported_core_library_witness :
    construct "TensorFlow" "/r" [] [] = .error PyError.attributeError :=
  unsupported_core_library "TensorFlow" "/r" [] [] (by decide) (by decide)

end ModelSelection
